import Mathlib

/-!
Verification development for the Archon repository.

This file gives a shallow embedding of the parts of the code base relevant to
the frozen claims:

* `src/python/src/mcp/mcp_server.py` — the JSON-RPC-over-HTTP endpoint
  `mcp_http_endpoint`;
* `src/python/src/server/services/metacognition/learning_formatter.py` —
  `create_learning_entries`, `SynopsisGenerator` and its helpers;
* `src/python/src/server/services/crawler_manager.py` — the singleton
  `CrawlerManager` state machine;
* `src/python/src/server/services/metacognition/knowledge_storage.py` —
  `save_learning_file` and `get_learning_file_paths`.

Python values that can appear in parsed JSON bodies and in the dictionaries
built by the formatter are embedded as the inductive `PyVal`; Python dicts
are association lists (keys are unique at every construction site, and
lookups take the first match).  Stateful code is embedded as explicit state
passing; functions that can raise return `Except` or carry an explicit
raised-exception component.  Python standard-library primitives that are
external to the repository (`json.loads`, `datetime.strptime`) are taken as
parameters of the embedding.
-/

set_option autoImplicit false

/-- Embedding of the Python/JSON values flowing through the code:
strings, ints, booleans, `None`, lists and dicts. -/
inductive PyVal where
  | str (s : String)
  | num (n : Int)
  | bool (b : Bool)
  | null
  | arr (xs : List PyVal)
  | obj (fields : List (String × PyVal))

/-- Python truthiness (`if x:`) for the embedded values. -/
def pyTruthy : PyVal → Bool
  | .str s => s ≠ ""
  | .num n => n ≠ 0
  | .bool b => b
  | .null => false
  | .arr xs => !xs.isEmpty
  | .obj fs => !fs.isEmpty

/-- `d.get(k, default)` on a dict embedded as an association list. -/
def assocGetD (fs : List (String × PyVal)) (k : String) (d : PyVal) : PyVal :=
  match fs.find? (fun p => p.1 == k) with
  | some p => p.2
  | none => d

/-- `k in d` for a dict embedded as an association list. -/
def assocHasKey (fs : List (String × PyVal)) (k : String) : Bool :=
  (fs.find? (fun p => p.1 == k)).isSome

mutual

/-- Python `repr` of an embedded value (for strings free of quotes,
backslashes and control characters, which is the only way it is consulted
by the code under verification). -/
def pyReprVal : PyVal → String
  | .str s => "'" ++ s ++ "'"
  | .num n => toString n
  | .bool b => if b then "True" else "False"
  | .null => "None"
  | .arr xs => "[" ++ String.intercalate ", " (pyReprList xs) ++ "]"
  | .obj fs => "\x7b" ++ String.intercalate ", " (pyReprFields fs) ++ "\x7d"

/-- `repr` of each element of a Python list. -/
def pyReprList : List PyVal → List String
  | [] => []
  | v :: vs => pyReprVal v :: pyReprList vs

/-- `repr` of each `key: value` item of a Python dict. -/
def pyReprFields : List (String × PyVal) → List String
  | [] => []
  | (k, v) :: fs => ("'" ++ k ++ "': " ++ pyReprVal v) :: pyReprFields fs

end

/-- Python `str` of an embedded value (`str()` of a `str` is itself;
other values print as their `repr`). -/
def pyStrVal : PyVal → String
  | .str s => s
  | v => pyReprVal v

/-! ## Python string primitives used by the embedded code -/

/-- The whitespace characters recognised by Python's `str.split()`,
`str.strip()` and the regex class `\s`. -/
def pyIsSpaceChar (c : Char) : Bool :=
  c = ' ' || c = '\t' || c = '\n' || c = '\r' || c = Char.ofNat 11 || c = Char.ofNat 12

/-- Python `str.lower()` (on the ASCII fragment exercised by the code). -/
def pyLower (s : String) : String := ⟨s.data.map Char.toLower⟩

/-- Whether `needle` occurs as a contiguous run of `hay` (list form). -/
def containsSub (needle : List Char) : List Char → Bool
  | [] => needle.isEmpty
  | c :: t => needle.isPrefixOf (c :: t) || containsSub needle t

/-- Python `needle in hay` on strings: substring containment. -/
def pyContains (needle hay : String) : Bool := containsSub needle.data hay.data

/-- Python `s.startswith(pre)`. -/
def pyStartsWith (s pre : String) : Bool := pre.data.isPrefixOf s.data

/-- Python `s.split()`: split on whitespace runs, dropping empty pieces. -/
def pySplit (s : String) : List String :=
  (s.split (fun c => pyIsSpaceChar c)).filter (fun w => w ≠ "")

/-- Python `s.strip()`. -/
def pyStrip (s : String) : String :=
  ⟨((s.data.dropWhile pyIsSpaceChar).reverse.dropWhile pyIsSpaceChar).reverse⟩

/-- Python `s.capitalize()`: first character upper-cased, the rest lower-cased. -/
def pyCapitalize (s : String) : String :=
  match s.data with
  | [] => ""
  | c :: cs => ⟨c.toUpper :: cs.map Char.toLower⟩

/-- Python slicing `s[:n]` for `0 ≤ n`. -/
def pySliceTo (s : String) (n : Nat) : String := ⟨s.data.take n⟩

/-- Helper for `pyTitleCase`: the Bool records whether the previous character
was alphabetic. -/
def pyTitleCaseAux : List Char → Bool → List Char
  | [], _ => []
  | c :: cs, prevAlpha =>
    if c.isAlpha then
      (if prevAlpha then c.toLower else c.toUpper) :: pyTitleCaseAux cs true
    else
      c :: pyTitleCaseAux cs false

/-- Python `s.title()`: each run of letters gets an upper-case first letter
and lower-case remainder. -/
def pyTitleCase (s : String) : String := ⟨pyTitleCaseAux s.data false⟩

/-- Python `f"{i:03d}"` for a non-negative `i`: decimal digits left-padded
with zeros to width 3. -/
def pyFormat3 (i : Nat) : String :=
  String.mk (List.replicate (3 - (toString i).length) '0') ++ toString i

/-- Decimal rendering left-padded with zeros to width `w` (Python `%02d` etc.). -/
def padZeros (w : Nat) (n : Nat) : String :=
  String.mk (List.replicate (w - (toString n).length) '0') ++ toString n

/-- Python `==` between a dict value and a string literal: true exactly when
the value is a string with those characters. -/
def pyEqStrVal (v : PyVal) (t : String) : Bool :=
  match v with
  | .str s => s == t
  | _ => false

/-! ## Embedding of `src/python/src/mcp/mcp_server.py`, `mcp_http_endpoint`

The tool registry `mcp._tool_manager._tools` is an association list from
tool names to handlers.  A handler call either returns a Python value
(a `str`, or some JSON-able object), raises `TypeError` (the parameter
mismatch caught at line 409), or raises some other exception (caught at
line 421).  `json.loads` is a parameter of the embedding: on failure it
yields the message of the raised `json.JSONDecodeError`.

The endpoint result is `Except PyErr (PyVal × Nat)`:
the `PyVal` is the JSON content of the `JSONResponse`, the `Nat` counts how
many times a tool handler was invoked, and the `.error` case models an
exception escaping the endpoint uncaught (Starlette then produces an
HTTP 500, not a JSON-RPC envelope). -/

/-- A Python exception value. -/
inductive PyErr where
  | attributeErr (msg : String)
  | typeErr (msg : String)
  | valueErr (msg : String)
  | keyErr (k : String)
deriving DecidableEq

/-- What a tool handler returned: a Python `str`, or a non-string value. -/
inductive ToolRet where
  | s (text : String)
  | v (val : PyVal)

/-- Outcome of invoking a tool handler. -/
inductive ToolOutcome where
  | ok (r : ToolRet)
  | typeErr (msg : String)
  | exc (typeName msg : String)

/-- A tool handler: receives `some params` when the request's `params` dict
is truthy (the `tool_handler.fn(mock_ctx, **params)` call) and `none`
otherwise (the `tool_handler.fn(mock_ctx)` call). -/
def ToolHandler := Option PyVal → ToolOutcome

/-- The dict-membership test `method not in mcp._tool_manager._tools`
followed by the lookup `mcp._tool_manager._tools[method]`, for a hashable
`method`: only a string can name a registered tool. -/
def lookupTool (tools : List (String × ToolHandler)) : PyVal → Option (String × ToolHandler)
  | .str m => tools.find? (fun p => p.1 == m)
  | _ => none

/-- The JSON-RPC success envelope built at lines 403–407. -/
def successEnvelope (id result : PyVal) : PyVal :=
  .obj [("jsonrpc", .str "2.0"), ("id", id), ("result", result)]

/-- A JSON-RPC error envelope (`data` omitted when the code omits it). -/
def errorEnvelope (id : PyVal) (code : Int) (msg : String) (data : Option PyVal) : PyVal :=
  .obj [("jsonrpc", .str "2.0"), ("id", id),
    ("error", .obj ([("code", .num code), ("message", .str msg)] ++
      (match data with
       | some d => [("data", d)]
       | none => [])))]

/-- Embedding of `mcp_http_endpoint` (mcp_server.py lines 344–463).

`rawBody = none` models a POST body that is not valid JSON
(`request.json()` raises and the handler at line 434 answers `-32700`
with id `null`).  A non-dict JSON body raises `HTTPException(400, ...)`,
but the `except HTTPException` handler then evaluates `body.get("id")`
on the non-dict value, so an `AttributeError` escapes the endpoint:
that is the `Except.error` case.  A truthy unhashable `method` makes the
`method not in mcp._tool_manager._tools` test raise `TypeError`, which the
outermost handler converts to a `-32603` envelope. -/
def mcp_http_endpoint (loads : String → Except String PyVal)
    (tools : List (String × ToolHandler)) (rawBody : Option PyVal) :
    Except PyErr (PyVal × Nat) :=
  match rawBody with
  | none =>
      .ok (errorEnvelope .null (-32700) "Parse error: Invalid JSON" none, 0)
  | some (PyVal.obj fs) =>
      if !pyEqStrVal (assocGetD fs "jsonrpc" .null) "2.0" then
        .ok (errorEnvelope (assocGetD fs "id" .null) (-32600) "Must be JSON-RPC 2.0" none, 0)
      else
        let method := assocGetD fs "method" PyVal.null
        if !pyTruthy method then
          .ok (errorEnvelope (assocGetD fs "id" .null) (-32600) "Missing 'method' field" none, 0)
        else
          let requestId := assocGetD fs "id" PyVal.null
          let params := assocGetD fs "params" (PyVal.obj [])
          match method with
          | .arr _ =>
              .ok (errorEnvelope requestId (-32603) "Internal error: unhashable type: 'list'" none, 0)
          | .obj _ =>
              .ok (errorEnvelope requestId (-32603) "Internal error: unhashable type: 'dict'" none, 0)
          | _ =>
            match lookupTool tools method with
            | none =>
                .ok (errorEnvelope requestId (-32601) ("Method not found: " ++ pyStrVal method)
                  (some (.obj [("available_methods",
                    .arr (tools.map fun p => .str p.1))])), 0)
            | some tool =>
                let callArg := if pyTruthy params then some params else none
                match tool.2 callArg with
                | .ok (.v v) => .ok (successEnvelope requestId v, 1)
                | .ok (.s text) =>
                  match loads text with
                  | .ok v => .ok (successEnvelope requestId v, 1)
                  | .error emsg =>
                      .ok (errorEnvelope requestId (-32000) ("Tool execution failed: " ++ emsg)
                        (some (.obj [("method", method),
                          ("error_type", .str "JSONDecodeError")])), 1)
                | .typeErr temsg =>
                    .ok (errorEnvelope requestId (-32602)
                      ("Invalid params for " ++ pyStrVal method ++ ": " ++ temsg)
                      (some (.obj [("method", method), ("params", params)])), 1)
                | .exc ty emsg =>
                    .ok (errorEnvelope requestId (-32000) ("Tool execution failed: " ++ emsg)
                      (some (.obj [("method", method), ("error_type", .str ty)])), 1)
  | some _ =>
      .error (.attributeErr "'body' object has no attribute 'get'")

/-! ## Embedding of `learning_formatter.py`

The dictionaries flowing into the formatter are modelled by typed records
holding exactly the fields the code reads.  Every field access in the
source is a `.get` with a default, so a record models a dictionary in
which every read field is present and has the expected type — which is
the case for every dictionary the repository itself constructs (see
`session_analyzer.py`), and is the domain on which the Python functions
return instead of raising on a type mismatch. -/

/-- One element of `session_data["debugging_experiences"]`. -/
structure Experience where
  problem_description : String
  investigation_steps : List String
  solution_applied : String
  outcome : String

/-- The session dictionary produced by `session_analyzer.analyze_current_session`.
`timestamp = none` models a dictionary without a `"timestamp"` key, and
`project_context = ""` a missing or empty project context (the code only
tests its truthiness). -/
structure SessionData where
  debugging_experiences : List Experience
  timestamp : Option String
  project_context : String

/-- `_determine_trigger_type` (learning_formatter.py lines 118–139). -/
def _determine_trigger_type (problem_description : String) : String :=
  let problem_lower := pyLower problem_description
  if ["error", "exception", "failed", "crash", "bug"].any
      (fun w => pyContains w problem_lower) then "error"
  else if ["slow", "performance", "timeout", "lag"].any
      (fun w => pyContains w problem_lower) then "performance"
  else if ["unexpected", "weird", "strange", "odd"].any
      (fun w => pyContains w problem_lower) then "investigation"
  else if ["optimization", "improvement", "enhancement"].any
      (fun w => pyContains w problem_lower) then "optimization"
  else "investigation"

/-- `_infer_goal_from_problem` (lines 632–641). -/
def _infer_goal_from_problem (problem_desc : String) : String :=
  let l := pyLower problem_desc
  if pyContains "project" l then
    "Set up and configure project environment properly"
  else if pyContains "install" l || pyContains "dependencies" l then
    "Install and manage project dependencies correctly"
  else if pyContains "import" l || pyContains "module" l then
    "Import and use modules correctly in the application"
  else
    "Resolve the identified issue and restore expected functionality"

/-- `_extract_action_taken` (lines 644–652). -/
def _extract_action_taken (steps : List String) : String :=
  match steps with
  | [] => "Initiated systematic debugging process"
  | first_step :: _ =>
    if pyContains "check" (pyLower first_step) then
      "Investigated the issue by " ++ pyLower first_step
    else
      "Began debugging by " ++ pyLower first_step

/-- `_infer_expected_vs_actual` (lines 655–667); the `outcome` argument is
unused by the source body. -/
def _infer_expected_vs_actual (problem_desc : String) (outcome : String) : String × String :=
  let l := pyLower problem_desc
  if pyContains "missing" l || pyContains "not found" l then
    ("Required files/modules should be accessible and functional",
     "Files/modules were not found or not accessible from current context")
  else if pyContains "dependencies" l then
    ("All dependencies should be installed and available",
     "Dependencies were not installed or not available")
  else
    ("System should function as intended without errors",
     if problem_desc ≠ "" then problem_desc else "Encountered unexpected behavior")

/-- `_extract_initial_hypothesis` (lines 670–678). -/
def _extract_initial_hypothesis (steps : List String) : String :=
  match steps with
  | [] => "Initial hypothesis based on error symptoms and common patterns"
  | first_step :: _ =>
    if pyContains "check" (pyLower first_step) then
      "Initial assumption was related to " ++ pyLower first_step
    else
      "First hypothesis: " ++ first_step

/-- Length of the match of `re.sub(r'^(step \d+:?|then|next)\s*', ...)`
against the lower-cased character list, when the pattern matches at the
start: the matched alternative plus the trailing whitespace run. -/
def stepMarkerLen (lower : List Char) : Option Nat :=
  let withWs (base : Nat) : Nat := base + ((lower.drop base).takeWhile pyIsSpaceChar).length
  if "step ".data.isPrefixOf lower then
    let afterWord := lower.drop 5
    let digits := afterWord.takeWhile Char.isDigit
    if digits.isEmpty then none
    else
      let base := 5 + digits.length
      some (withWs (base + (if (lower.drop base).take 1 = [':'] then 1 else 0)))
  else if "then".data.isPrefixOf lower then some (withWs 4)
  else if "next".data.isPrefixOf lower then some (withWs 4)
  else none

/-- `re.sub(r'^(step \d+:?|then|next)\s*', '', step, flags=re.IGNORECASE)`
(line 686): remove a case-insensitive step marker at the start of the string. -/
def stripStepMarker (step : String) : String :=
  match stepMarkerLen (step.data.map Char.toLower) with
  | some n => ⟨step.data.drop n⟩
  | none => step

/-- `_clean_investigation_steps` (lines 681–691). -/
def _clean_investigation_steps (steps : List String) : List String :=
  let cleaned_steps := steps.filterMap fun step =>
    let cleaned := pyStrip (stripStepMarker step)
    if cleaned ≠ "" then some (pyCapitalize cleaned) else none
  if cleaned_steps.isEmpty then ["Analyzed the problem systematically"] else cleaned_steps

/-- `_identify_dead_ends` (lines 694–707). -/
def _identify_dead_ends (steps : List String) (solution : String) : List String :=
  let solution_keywords := pySplit (pyLower solution)
  let dead_ends := steps.dropLast.filterMap fun step =>
    let step_lower := pyLower step
    if !(solution_keywords.any fun kw => pyContains kw step_lower) then
      if ["tried", "attempted", "checked", "tested"].any (fun w => pyContains w step_lower) then
        some ("Investigated " ++ pyLower step ++ " but this wasn't the root cause")
      else none
    else none
  if dead_ends.isEmpty then ["Initial troubleshooting approaches required refinement"]
  else dead_ends

/-- `_infer_root_cause` (lines 710–721). -/
def _infer_root_cause (problem_desc : String) (solution : String) : String :=
  let l := pyLower solution
  if pyContains "virtual environment" l then
    "Missing or incorrectly configured virtual environment"
  else if pyContains "install" l then
    "Missing dependencies or incorrect installation"
  else if pyContains "path" l || pyContains "directory" l then
    "Incorrect working directory or path configuration"
  else if pyContains "permissions" l then
    "File or directory permission issues"
  else
    "Root cause addressed by: " ++ solution

/-- `_extract_verification_method` (lines 724–731). -/
def _extract_verification_method (outcome : String) : String :=
  if pyContains "successfully" (pyLower outcome) then
    "Confirmed resolution by testing the previously failing scenario"
  else if pyContains "resolved" (pyLower outcome) then
    "Verified fix by reproducing original conditions"
  else
    "Validation method: " ++ outcome

/-- `_extract_domain_principle` (lines 734–746). -/
def _extract_domain_principle (problem_desc : String) (solution : String) : String :=
  let combined := pyLower (problem_desc ++ " " ++ solution)
  if ["python", "pip", "venv", "import", "module", ".py"].any
      (fun w => pyContains w combined) then
    "Python import system requires proper working directory and module path configuration"
  else if ["javascript", "node", "npm"].any (fun w => pyContains w combined) then
    "JavaScript projects require proper dependency installation via npm/yarn"
  else if pyContains "git" combined then
    "Version control operations require understanding of Git workflow and commands"
  else
    "Technology-specific configuration and setup patterns are crucial for success"

/-- `_extract_universal_principle` (lines 749–763); `solution` is unused by
the source body. -/
def _extract_universal_principle (steps : List String) (solution : String) : String :=
  let steps_text := pyLower (String.intercalate " " steps)
  if pyContains "working directory" steps_text || pyContains "context" steps_text
      || pyContains "path" steps_text then
    "Understanding the execution context is essential when resolving import or path-related issues"
  else if pyContains "systematic" steps_text || 3 < steps.length then
    "Systematic investigation yields better debugging outcomes than ad hoc troubleshooting"
  else if pyContains "check" steps_text then
    "Verify assumptions before proceeding with complex solutions"
  else
    "Understanding the problem context is essential before applying solutions"

/-- `_extract_pattern_recognition` (lines 766–773). -/
def _extract_pattern_recognition (problem_desc : String) (solution : String) : String :=
  if pyContains "not found" (pyLower problem_desc) then
    "'Not found' errors often indicate path, environment, or dependency issues"
  else if pyContains "missing" (pyLower problem_desc) then
    "Missing component errors suggest setup or configuration problems"
  else
    "Error patterns provide clues about the category and likely solutions"

/-- `_extract_mental_model` (lines 776–783). -/
def _extract_mental_model (problem_desc : String) (solution : String)
    (steps : List String) : String :=
  if pyContains "environment" (pyLower solution) then
    "Development environments are isolated contexts with their own dependencies"
  else if pyContains "path" (pyLower solution) then
    "File system navigation and context matter for resource accessibility"
  else
    "Debugging is a systematic process of hypothesis testing and validation"

/-- The `situation` section dictionary. -/
structure Situation where
  goal : String
  action_taken : String
  expected_result : String
  actual_result : String

/-- The `debug_journey` section dictionary. -/
structure DebugJourney where
  initial_hypothesis : String
  investigation_path : List String
  dead_ends : List String

/-- The `resolution` section dictionary. -/
structure Resolution where
  root_cause : String
  solution : String
  verification : String

/-- The `knowledge_synthesis` section dictionary. -/
structure KnowledgeSynthesis where
  domain_principle : String
  universal_principle : String
  pattern_recognition : String
  mental_model : String

/-- `_extract_situation_details` (lines 142–168). -/
def _extract_situation_details (problem_desc : String) (steps : List String)
    (outcome : String) : Situation :=
  let ea := _infer_expected_vs_actual problem_desc outcome
  { goal := _infer_goal_from_problem problem_desc
    action_taken := _extract_action_taken steps
    expected_result := ea.1
    actual_result := ea.2 }

/-- `_extract_debug_journey` (lines 171–195). -/
def _extract_debug_journey (steps : List String) (solution : String) : DebugJourney :=
  { initial_hypothesis := _extract_initial_hypothesis steps
    investigation_path := _clean_investigation_steps steps
    dead_ends := _identify_dead_ends steps solution }

/-- `_extract_resolution` (lines 198–223). -/
def _extract_resolution (solution : String) (outcome : String)
    (problem_desc : String) : Resolution :=
  { root_cause := _infer_root_cause problem_desc solution
    solution := if solution ≠ "" then solution else "Applied systematic debugging approach"
    verification := _extract_verification_method outcome }

/-- `_extract_knowledge_synthesis` (lines 226–253). -/
def _extract_knowledge_synthesis (problem_desc : String) (solution : String)
    (steps : List String) : KnowledgeSynthesis :=
  { domain_principle := _extract_domain_principle problem_desc solution
    universal_principle := _extract_universal_principle steps solution
    pattern_recognition := _extract_pattern_recognition problem_desc solution
    mental_model := _extract_mental_model problem_desc solution steps }

/-- The section dictionaries as embedded Python values. -/
def situationToPy (s : Situation) : PyVal :=
  .obj [("goal", .str s.goal), ("action_taken", .str s.action_taken),
    ("expected_result", .str s.expected_result), ("actual_result", .str s.actual_result)]

/-- The `debug_journey` dictionary as an embedded Python value. -/
def debugJourneyToPy (d : DebugJourney) : PyVal :=
  .obj [("initial_hypothesis", .str d.initial_hypothesis),
    ("investigation_path", .arr (d.investigation_path.map PyVal.str)),
    ("dead_ends", .arr (d.dead_ends.map PyVal.str))]

/-- The `resolution` dictionary as an embedded Python value. -/
def resolutionToPy (r : Resolution) : PyVal :=
  .obj [("root_cause", .str r.root_cause), ("solution", .str r.solution),
    ("verification", .str r.verification)]

/-- The `knowledge_synthesis` dictionary as an embedded Python value. -/
def knowledgeSynthesisToPy (k : KnowledgeSynthesis) : PyVal :=
  .obj [("domain_principle", .str k.domain_principle),
    ("universal_principle", .str k.universal_principle),
    ("pattern_recognition", .str k.pattern_recognition),
    ("mental_model", .str k.mental_model)]

/-- A learning-entry dictionary as read by `SynopsisGenerator`: every field
the generator accesses, present with its expected type (the shape of every
entry `_create_single_learning_entry` builds). -/
structure LearningEntryData where
  id : String
  timestamp : String
  trigger : String
  situation : Situation
  debug_journey : DebugJourney
  resolution : Resolution
  knowledge_synthesis : KnowledgeSynthesis

/-- The five bullet keys of a synopsis, in construction order. -/
def synopsisKeys : List String :=
  ["symptoms", "context", "root_cause", "fix", "applies_when"]

/-- The dictionary returned by `generate_synopsis` /
`create_synopsis_from_session_data`: a `title` string and a `bullets` dict
(association list of bullet name to text). -/
structure Synopsis where
  title : String
  bullets : List (String × String)

/-- `bullets.get(k, d)` / `compressed[k]` on a bullets dict. -/
def bulletsGetD (bs : List (String × String)) (k d : String) : String :=
  match bs.find? (fun p => p.1 == k) with
  | some p => p.2
  | none => d

/-- `compressed[k] = v`: dict assignment — update in place when the key
exists (keeping its position), append otherwise. -/
def bulletsSet (bs : List (String × String)) (k v : String) : List (String × String) :=
  match bs with
  | [] => [(k, v)]
  | (k', v') :: rest => if k' == k then (k', v) :: rest else (k', v') :: bulletsSet rest k v

/-- `max(keys, key=...)` scan: Python `max` keeps the first key attaining
the maximal word count. -/
def pyMaxWordsKeyAux : List (String × String) → String → Nat → String
  | [], best, _ => best
  | (k, v) :: rest, best, bestCount =>
    let c := (pySplit v).length
    if bestCount < c then pyMaxWordsKeyAux rest k c
    else pyMaxWordsKeyAux rest best bestCount

/-- `max(compressed.keys(), key=lambda k: len(compressed[k].split()))`
(line 495); `none` on an empty dict, where Python `max` raises. -/
def pyMaxWordsKey : List (String × String) → Option String
  | [] => none
  | (k, v) :: rest => some (pyMaxWordsKeyAux rest k (pySplit v).length)

/-- The synopsis as an embedded Python value (v2 entry field `"synopsis"`). -/
def synopsisToPy (s : Synopsis) : PyVal :=
  .obj [("title", .str s.title),
    ("bullets", .obj (s.bullets.map fun p => (p.1, PyVal.str p.2)))]

/-- A string-valued dict as an embedded Python value. -/
def strPairsToPy (ps : List (String × String)) : PyVal :=
  .obj (ps.map fun p => (p.1, PyVal.str p.2))

namespace SynopsisGenerator

/-- `_infer_domain_from_entry` (lines 592–603).  `str(entry)` is the Python
repr of the entry dictionary; at the one call chain in the repository
(`_create_single_learning_entry` → `generate_synopsis` → `_generate_title`)
the entry holds the seven base fields plus `version: 2` at that point. -/
def _infer_domain_from_entry (entry : LearningEntryData) : String :=
  let content_text := pyLower (pyReprVal (.obj
    ([("id", .str entry.id), ("timestamp", .str entry.timestamp),
      ("trigger", .str entry.trigger), ("situation", situationToPy entry.situation),
      ("debug_journey", debugJourneyToPy entry.debug_journey),
      ("resolution", resolutionToPy entry.resolution),
      ("knowledge_synthesis", knowledgeSynthesisToPy entry.knowledge_synthesis),
      ("version", .num 2)])))
  if pyContains "python" content_text || pyContains "import" content_text then "Python"
  else if pyContains "javascript" content_text || pyContains "node" content_text then
    "JavaScript"
  else if pyContains "sql" content_text || pyContains "database" content_text then
    "Database"
  else "System"

/-- `_generate_title` (lines 361–380). -/
def _generate_title (entry : LearningEntryData) : String :=
  let goal := entry.situation.goal
  let actual_result := entry.situation.actual_result
  let title :=
    if pyContains "error" (pyLower actual_result)
        || pyContains "failed" (pyLower actual_result) then
      pyTitleCase (_infer_domain_from_entry entry) ++ " Error: " ++ pySliceTo actual_result 60
    else
      "Resolve: " ++ pySliceTo goal 70
  if 120 < title.length then pySliceTo title 117 ++ "..." else title

/-- The character class kept by `re.sub(r'[^\w\s-]', '', ...)` (line 388):
word characters (ASCII fragment), whitespace and hyphen. -/
def keepTitleChar (c : Char) : Bool :=
  c.isAlphanum || c = '_' || pyIsSpaceChar c || c = '-'

/-- The word-accumulation loop of `_generate_title_from_problem`
(lines 393–399): add words while the candidate stays within 117
characters, stop at the first word that does not fit. -/
def buildTitleWords : List String → String → String
  | [], title => title
  | word :: rest, title =>
    if (title ++ " " ++ word).length ≤ 117 then
      buildTitleWords rest (if title ≠ "" then title ++ " " ++ word else word)
    else title

/-- `_generate_title_from_problem` (lines 382–401). -/
def _generate_title_from_problem (problem_desc : String) : String :=
  if problem_desc = "" then "Debugging Session Learning"
  else
    let clean_desc : String := ⟨problem_desc.data.filter keepTitleChar⟩
    if clean_desc.length ≤ 120 then clean_desc
    else
      let title := buildTitleWords (pySplit clean_desc) ""
      if 120 < clean_desc.length then title ++ "..." else title

/-- `_format_context_bullet` (lines 418–436); the `debug_journey` argument
is unused by the source body. -/
def _format_context_bullet (situation : Situation) (debug_journey : DebugJourney) : String :=
  let context_parts : List String :=
    if situation.action_taken ≠ "" then
      ["While " ++ pyLower situation.action_taken]
    else []
  let goal := pyLower situation.goal
  let context_parts := context_parts ++
    [if pyContains "python" goal || pyContains "import" goal then
      "in Python development environment"
     else if pyContains "javascript" goal || pyContains "node" goal then
      "in JavaScript/Node.js environment"
     else if pyContains "database" goal || pyContains "sql" goal then
      "in database environment"
     else "in development environment"]
  if !context_parts.isEmpty then String.intercalate " " context_parts
  else "Development environment context"

/-- `_format_applicability_bullet` (lines 438–449). -/
def _format_applicability_bullet (knowledge_synthesis : KnowledgeSynthesis) : String :=
  let pattern := knowledge_synthesis.pattern_recognition
  if pattern ≠ "" && pyContains "when" (pyLower pattern) then pattern
  else
    let domain_principle := knowledge_synthesis.domain_principle
    if domain_principle ≠ "" then
      "When encountering similar " ++ pyLower domain_principle
    else "When facing similar debugging challenges"

/-- `_generate_bullets` (lines 403–416); all fields are present in the
typed entry, so the `.get` defaults are not exercised. -/
def _generate_bullets (entry : LearningEntryData) : List (String × String) :=
  [("symptoms", entry.situation.actual_result),
   ("context", _format_context_bullet entry.situation entry.debug_journey),
   ("root_cause", entry.resolution.root_cause),
   ("fix", entry.resolution.solution),
   ("applies_when", _format_applicability_bullet entry.knowledge_synthesis)]

/-- Per-key expansion text of `_expand_bullets` (lines 474–485). -/
def expandSuffix (key : String) : String :=
  if key == "symptoms" then " with detailed error context"
  else if key == "context" then " during development workflow"
  else if key == "root_cause" then " through systematic analysis"
  else if key == "fix" then " with verification steps"
  else if key == "applies_when" then " in similar scenarios"
  else ""

/-- `_expand_bullets` (lines 466–487). -/
def _expand_bullets (bullets : List (String × String)) (words_needed : Nat) :
    List (String × String) :=
  let keys := bullets.map Prod.fst
  let words_per_bullet := if keys.isEmpty then 0 else words_needed / keys.length
  bullets.map fun p =>
    if 0 < words_per_bullet then (p.1, p.2 ++ expandSuffix p.1) else p

/-- `_compress_bullets` (lines 489–504), by recursion on `words_to_remove`
(each loop iteration either decrements it or breaks out).  The `none`
branch of `pyMaxWordsKey` (Python `max` on an empty dict raises) is
unreachable from `_adjust_word_count`, which only compresses dictionaries
holding more than 200 words. -/
def _compress_bullets : List (String × String) → Nat → List (String × String)
  | compressed, 0 => compressed
  | compressed, words_to_remove + 1 =>
    match pyMaxWordsKey compressed with
    | none => compressed
    | some longest_key =>
      let words := pySplit (bulletsGetD compressed longest_key "")
      if 5 < words.length then
        _compress_bullets
          (bulletsSet compressed longest_key (String.intercalate " " words.dropLast))
          words_to_remove
      else compressed

/-- `_adjust_word_count` (lines 451–464). -/
def _adjust_word_count (bullets : List (String × String)) : List (String × String) :=
  let total_text := String.intercalate " " (bullets.map Prod.snd)
  let word_count := (pySplit total_text).length
  if word_count < 120 then _expand_bullets bullets (120 - word_count)
  else if 200 < word_count then _compress_bullets bullets (word_count - 200)
  else bullets

/-- `_create_default_synopsis` (lines 605–616). -/
def _create_default_synopsis : Synopsis :=
  { title := "Learning Session Analysis"
    bullets := [("symptoms", "Issue encountered during session"),
      ("context", "Development environment"),
      ("root_cause", "Root cause analysis needed"),
      ("fix", "Solution implementation needed"),
      ("applies_when", "When facing similar challenges")] }

/-- `generate_synopsis` (lines 272–294). -/
def generate_synopsis (entry : LearningEntryData) : Synopsis :=
  { title := _generate_title entry
    bullets := _adjust_word_count (_generate_bullets entry) }

/-- `_extract_symptoms` (lines 506–511). -/
def _extract_symptoms (experience : Experience) : String :=
  let problem_desc := experience.problem_description
  if pyContains "error" (pyLower problem_desc) then "Encountered " ++ pyLower problem_desc
  else if problem_desc ≠ "" then problem_desc
  else "Issue encountered during operation"

/-- `_extract_context` (lines 513–527). -/
def _extract_context (experience : Experience) (session_data : SessionData) : String :=
  if session_data.project_context ≠ "" then
    "Working in " ++ session_data.project_context ++ " environment"
  else
    let problem_desc := pyLower experience.problem_description
    if pyContains "python" problem_desc || pyContains "import" problem_desc then
      "Python development environment"
    else if pyContains "javascript" problem_desc || pyContains "node" problem_desc then
      "JavaScript/Node.js environment"
    else "Development environment"

/-- `_extract_root_cause_from_experience` (lines 529–540). -/
def _extract_root_cause_from_experience (experience : Experience) : String :=
  let solution := pyLower experience.solution_applied
  if pyContains "directory" solution then "Working directory or path configuration issue"
  else if pyContains "install" solution then "Missing or incorrect dependency installation"
  else if pyContains "permission" solution then "File or directory permission restriction"
  else "Root cause identified through systematic debugging"

/-- `_extract_fix` (lines 542–552). -/
def _extract_fix (experience : Experience) : String :=
  let solution := experience.solution_applied
  if solution ≠ "" then
    if !(["use", "run", "install", "set", "configure", "change", "add", "remove"].any
        fun verb => pyStartsWith (pyLower solution) verb) then
      "Apply " ++ pyLower solution
    else solution
  else "Apply systematic debugging approach"

/-- `_extract_applicability` (lines 554–565). -/
def _extract_applicability (experience : Experience) : String :=
  let problem_desc := pyLower experience.problem_description
  if pyContains "not found" problem_desc then
    "When files exist but are not found by the system"
  else if pyContains "error" problem_desc && pyContains "import" problem_desc then
    "When import statements fail despite proper installation"
  else if pyContains "permission" problem_desc then
    "When encountering file or directory access restrictions"
  else "When facing similar configuration or environment issues"

/-- `create_synopsis_from_session_data` (lines 296–333). -/
def create_synopsis_from_session_data (session_data : SessionData) : Synopsis :=
  match session_data.debugging_experiences with
  | [] => _create_default_synopsis
  | experience :: _ =>
    let title := _generate_title_from_problem experience.problem_description
    let bullets := [("symptoms", _extract_symptoms experience),
      ("context", _extract_context experience session_data),
      ("root_cause", _extract_root_cause_from_experience experience),
      ("fix", _extract_fix experience),
      ("applies_when", _extract_applicability experience)]
    { title := title, bullets := _adjust_word_count bullets }

/-- `_format_synopsis_for_embedding` (lines 567–570). -/
def _format_synopsis_for_embedding (synopsis : Synopsis) : String :=
  "Problem: " ++ bulletsGetD synopsis.bullets "symptoms" ""
    ++ " Context: " ++ bulletsGetD synopsis.bullets "context" ""
    ++ " Cause: " ++ bulletsGetD synopsis.bullets "root_cause" ""
    ++ " Solution: " ++ bulletsGetD synopsis.bullets "fix" ""
    ++ " Use: " ++ bulletsGetD synopsis.bullets "applies_when" ""

/-- `_format_debug_journey_for_embedding` (lines 572–577); the typed
experience always holds a list, so the `isinstance(steps, list)` branch
applies. -/
def _format_debug_journey_for_embedding (experience : Experience) : String :=
  String.intercalate " → " experience.investigation_steps

/-- `_extract_pattern_for_embedding` (lines 579–590). -/
def _extract_pattern_for_embedding (experience : Experience) : String :=
  let problem_desc := experience.problem_description
  let solution := experience.solution_applied
  if pyContains "file" (pyLower problem_desc) && pyContains "directory" (pyLower solution) then
    "File accessibility issues often relate to working directory context"
  else if pyContains "import" (pyLower problem_desc) then
    "Import errors typically indicate path or environment configuration problems"
  else "Debugging requires systematic hypothesis testing and validation"

/-- `_create_default_embedding_content` (lines 618–627). -/
def _create_default_embedding_content : List (String × String) :=
  [("title", "Learning Session Analysis"),
   ("synopsis", "Problem: Issue encountered Context: Development environment Cause: Analysis needed Solution: Implementation needed Use: Similar challenges"),
   ("debug_journey", "Systematic investigation approach"),
   ("root_cause", "Root cause analysis needed"),
   ("solution", "Solution implementation needed"),
   ("pattern_recognition", "Debugging requires systematic approach")]

/-- `extract_embedding_field_content` (lines 335–359); the two
`experience.get("solution_applied", ...)` defaults are not exercised on
typed experiences. -/
def extract_embedding_field_content (session_data : SessionData) : List (String × String) :=
  match session_data.debugging_experiences with
  | [] => _create_default_embedding_content
  | experience :: _ =>
    let synopsis := create_synopsis_from_session_data session_data
    [("title", synopsis.title),
     ("synopsis", _format_synopsis_for_embedding synopsis),
     ("debug_journey", _format_debug_journey_for_embedding experience),
     ("root_cause", experience.solution_applied),
     ("solution", experience.solution_applied),
     ("pattern_recognition", _extract_pattern_for_embedding experience)]

end SynopsisGenerator

/-- `_create_single_learning_entry` (lines 45–115) as the association list
it builds: the seven base keys, then the v1/v2 additions in insertion
order.  `session_data = none` models a falsy `session_data` argument, and
`useSynopsis` whether a `SynopsisGenerator` was passed. -/
def _create_single_learning_entry (experience : Experience) (entry_id : String)
    (timestamp : String) (session_data : Option SessionData) (useSynopsis : Bool) :
    List (String × PyVal) :=
  let problem_desc := experience.problem_description
  let investigation_steps := experience.investigation_steps
  let solution := experience.solution_applied
  let outcome := experience.outcome
  let trigger := _determine_trigger_type problem_desc
  let situation := _extract_situation_details problem_desc investigation_steps outcome
  let debug_journey := _extract_debug_journey investigation_steps solution
  let resolution := _extract_resolution solution outcome problem_desc
  let knowledge_synthesis :=
    _extract_knowledge_synthesis problem_desc solution investigation_steps
  let entry : List (String × PyVal) :=
    [("id", .str entry_id), ("timestamp", .str timestamp), ("trigger", .str trigger),
     ("situation", situationToPy situation),
     ("debug_journey", debugJourneyToPy debug_journey),
     ("resolution", resolutionToPy resolution),
     ("knowledge_synthesis", knowledgeSynthesisToPy knowledge_synthesis)]
  if useSynopsis then
    let entry := entry ++ [("version", PyVal.num 2)]
    let synopsis :=
      match session_data with
      | some sd => SynopsisGenerator.create_synopsis_from_session_data sd
      | none => SynopsisGenerator.generate_synopsis
          ⟨entry_id, timestamp, trigger, situation, debug_journey, resolution,
           knowledge_synthesis⟩
    let entry := entry ++ [("synopsis", synopsisToPy synopsis),
      ("title", PyVal.str synopsis.title)]
    match session_data with
    | some sd => entry ++ [("embedding_fields",
        strPairsToPy (SynopsisGenerator.extract_embedding_field_content sd))]
    | none => entry
  else
    entry ++ [("version", PyVal.num 1)]

/-- The `for i, experience in enumerate(debugging_experiences, 1)` loop of
`create_learning_entries` (lines 32–40). -/
def createEntriesFrom (sd : SessionData) (ts : String) (useV2 : Bool) :
    List Experience → Nat → List (List (String × PyVal))
  | [], _ => []
  | experience :: rest, i =>
    _create_single_learning_entry experience ("L" ++ pyFormat3 i) ts (some sd) useV2
      :: createEntriesFrom sd ts useV2 rest (i + 1)

/-- `create_learning_entries` (lines 14–42).  `nowIso` models
`datetime.now().isoformat()`, the default used only when the session
dictionary has no `"timestamp"` key. -/
def create_learning_entries (session_data : SessionData) (use_v2_format : Bool)
    (nowIso : String) : List (List (String × PyVal)) :=
  let ts := match session_data.timestamp with
    | some t => t
    | none => nowIso
  createEntriesFrom session_data ts use_v2_format session_data.debugging_experiences 1

/-! ## Embedding of `crawler_manager.py`

`CrawlerManager` keeps all its data in class attributes
(`_instance`, `_crawler`, `_initialized`, `_using_fallback`); they are
modelled as an explicit `CrawlerState`, with `nextId` standing for object
allocation so that "the same instance/object" is expressible.  The
behaviour of the third-party crawl4ai library and of the outbound HTTP
client is external to the repository and enters through `CrawlEnv`:
`crawl4aiResult` is the outcome of the whole browser-crawler setup
(including the `ImportError` raised at line 131 when crawl4ai is absent,
browser-config construction, and `AsyncWebCrawler(...).__aenter__()`),
and `fallbackResult` the outcome of `FallbackCrawler().__aenter__()`. -/

/-- A crawler object, tagged with an allocation id. -/
inductive Crawler where
  | crawl4ai (id : Nat)
  | fallback (id : Nat)
deriving DecidableEq

/-- The class-attribute state of `CrawlerManager` (lines 100–103), plus an
allocation counter for fresh instances. -/
structure CrawlerState where
  instanceId : Option Nat
  nextId : Nat
  _crawler : Option Crawler
  _initialized : Bool
  _using_fallback : Bool
deriving DecidableEq

/-- Environment: outcomes of the external crawler initialisations. -/
structure CrawlEnv where
  crawl4aiResult : Except String Crawler
  fallbackResult : Except String Crawler

namespace CrawlerManager

/-- `CrawlerManager.__new__` (lines 105–108): allocate the singleton on
first use, then return it for ever after. -/
def new (s : CrawlerState) : Nat × CrawlerState :=
  match s.instanceId with
  | some i => (i, s)
  | none => (s.nextId,
      { s with instanceId := some s.nextId, nextId := s.nextId + 1 })

/-- `CrawlerManager.initialize` (lines 116–248).  The returned
`Option String` is the message of a raised exception (`none` = returned
normally).  Note that the double-failure branch resets the three class
attributes (lines 245–247) before raising, so the state after the raise
is part of the result. -/
def initCrawler (env : CrawlEnv) (s : CrawlerState) : CrawlerState × Option String :=
  if s._initialized && s._crawler.isSome then (s, none)
  else
    match env.crawl4aiResult with
    | .ok c => ({ s with _crawler := some c, _initialized := true }, none)
    | .error e =>
      match env.fallbackResult with
      | .ok c =>
          ({ s with _crawler := some c, _initialized := true, _using_fallback := true },
           none)
      | .error fallback_e =>
          ({ s with _crawler := none, _initialized := false, _using_fallback := false },
           some ("Both Crawl4AI and fallback crawler failed: " ++ e ++ ", " ++ fallback_e))

/-- `CrawlerManager.get_crawler` (lines 110–114): initialise if needed
(propagating a raised exception), then return `self._crawler`. -/
def get_crawler (env : CrawlEnv) (s : CrawlerState) :
    CrawlerState × Except String (Option Crawler) :=
  if !s._initialized || s._crawler.isNone then
    let r := initCrawler env s
    match r.2 with
    | some e => (r.1, .error e)
    | none => (r.1, .ok r.1._crawler)
  else (s, .ok s._crawler)

end CrawlerManager

/-! ## Embedding of `knowledge_storage.py`

`save_learning_file` and `get_learning_file_paths` work on learning-entry
dictionaries (the association lists produced by
`_create_single_learning_entry`, but nothing constrains callers to that
shape, so the markdown rendering is embedded with explicit Python
exceptions).  `datetime` is external: `StorageEnv.now` is the value of
`datetime.now()` (assumed stable across the adjacent calls inside one
invocation) and `strptimeHMS` the behaviour of
`datetime.strptime(s, '%H%M%S')` on the hour/minute/second fields. -/

/-- A `datetime` value: date, time and microseconds. -/
structure PyDateTime where
  year : Nat
  month : Nat
  day : Nat
  hour : Nat
  minute : Nat
  second : Nat
  micro : Nat

/-- `t.strftime('%Y%m%d-%H%M%S')`. -/
def strftimeYmdHMS (t : PyDateTime) : String :=
  padZeros 4 t.year ++ padZeros 2 t.month ++ padZeros 2 t.day ++ "-"
    ++ padZeros 2 t.hour ++ padZeros 2 t.minute ++ padZeros 2 t.second

/-- `t.isoformat()`: microseconds are printed only when non-zero. -/
def pyIsoformat (t : PyDateTime) : String :=
  padZeros 4 t.year ++ "-" ++ padZeros 2 t.month ++ "-" ++ padZeros 2 t.day ++ "T"
    ++ padZeros 2 t.hour ++ ":" ++ padZeros 2 t.minute ++ ":" ++ padZeros 2 t.second
    ++ (if t.micro ≠ 0 then "." ++ padZeros 6 t.micro else "")

/-- Environment of the storage module: current time, the stdlib
`strptime` on `'%H%M%S'`, `os.path.basename(os.getcwd())`, and the
project root directory derived from `__file__`. -/
structure StorageEnv where
  now : PyDateTime
  strptimeHMS : String → Option (Nat × Nat × Nat)
  cwdBasename : String
  projectRoot : String

/-- A file written by `save_learning_file`. -/
structure FileWrite where
  path : String
  content : String

/-- The `try: timestamp = datetime.strptime(session_id.split('-')[-1],
'%H%M%S').replace(year=..., month=..., day=...) except: datetime.now()`
logic shared by `save_learning_file` (lines 38–48) and
`get_learning_file_paths` (lines 95–105). -/
def sessionTimestampOf (env : StorageEnv) (session_id : String) : PyDateTime :=
  let timestamp_str := (session_id.splitOn "-").getLastD ""
  match env.strptimeHMS timestamp_str with
  | some (h, m, s) =>
      { year := env.now.year, month := env.now.month, day := env.now.day,
        hour := h, minute := m, second := s, micro := 0 }
  | none => env.now

/-- `v.get(k, d)` on an arbitrary value: `AttributeError` unless `v` is a
dict. -/
def pyGetOnVal (v : PyVal) (k : String) (d : PyVal) : Except PyErr PyVal :=
  match v with
  | .obj fs => .ok (assocGetD fs k d)
  | _ => .error (.attributeErr "object has no attribute 'get'")

/-- `for x in v`: the elements iterated over — list elements, the
characters of a string, the keys of a dict; `TypeError` otherwise. -/
def pyIterVals : PyVal → Except PyErr (List PyVal)
  | .arr xs => .ok xs
  | .str s => .ok (s.data.map fun c => .str ⟨[c]⟩)
  | .obj fs => .ok (fs.map fun p => .str p.1)
  | _ => .error (.typeErr "object is not iterable")

/-- `k in v` for a string `k`: key membership in a dict, substring test in
a string, element membership in a list; `TypeError` otherwise. -/
def pyHasMember (v : PyVal) (k : String) : Except PyErr Bool :=
  match v with
  | .obj fs => .ok (assocHasKey fs k)
  | .str s => .ok (pyContains k s)
  | .arr xs => .ok (xs.any fun x => pyEqStrVal x k)
  | _ => .error (.typeErr "argument is not iterable")

/-- `v[k]` for a string `k`: dict lookup (`KeyError` when absent),
`TypeError` on anything else. -/
def pySubscript (v : PyVal) (k : String) : Except PyErr PyVal :=
  match v with
  | .obj fs =>
    match fs.find? (fun p => p.1 == k) with
    | some p => .ok p.2
    | none => .error (.keyErr k)
  | _ => .error (.typeErr "indices must be integers")

/-- The `if x:` / `for ... in x:` rendering pattern used for
`investigation_path` (lines 255–262) and `dead_ends` (lines 264–272):
when `v` is truthy, iterate and render each element with `g`, otherwise
emit the fixed fallback line. -/
def renderIterBlock (v : PyVal) (g : List PyVal → List String) (dflt : List String) :
    Except PyErr (List String) :=
  if pyTruthy v then do
    let xs ← pyIterVals v
    pure (g xs)
  else pure dflt

/-- The synopsis section of `_format_learning_entry` (lines 291–302):
header, bullet lines when `'bullets' in synopsis`, trailing blank. -/
def renderSynopsisBlock (entry : List (String × PyVal)) : Except PyErr (List String) :=
  if assocHasKey entry "synopsis" then do
    let synopsis ← pySubscript (.obj entry) "synopsis"
    let hasBullets ← pyHasMember synopsis "bullets"
    let bulletLines ←
      if hasBullets then do
        let bullets ← pySubscript synopsis "bullets"
        let symptoms ← pyGetOnVal bullets "symptoms" (.str "")
        let context ← pyGetOnVal bullets "context" (.str "")
        let rc ← pyGetOnVal bullets "root_cause" (.str "")
        let fix ← pyGetOnVal bullets "fix" (.str "")
        let aw ← pyGetOnVal bullets "applies_when" (.str "")
        pure ["- **Symptoms**: " ++ pyStrVal symptoms,
          "- **Context**: " ++ pyStrVal context,
          "- **Root Cause**: " ++ pyStrVal rc,
          "- **Fix**: " ++ pyStrVal fix,
          "- **Applies When**: " ++ pyStrVal aw]
      else pure ([] : List String)
    pure (["### Quick Reference Synopsis"] ++ bulletLines ++ [""])
  else pure []

/-- `_format_learning_entry` (knowledge_storage.py lines 220–304).
`nowIso` is `datetime.now().isoformat()`, consulted only when an entry has
no `"timestamp"` key. -/
def _format_learning_entry (entry : List (String × PyVal)) (entry_number : Nat)
    (nowIso : String) : Except PyErr (List String) := do
  let header := [
    "## Learning Entry " ++ toString entry_number,
    "**ID**: " ++ pyStrVal (assocGetD entry "id" (.str ("L" ++ pyFormat3 entry_number))),
    "**Timestamp**: " ++ pyStrVal (assocGetD entry "timestamp" (.str nowIso)),
    "**Trigger**: " ++ pyStrVal (assocGetD entry "trigger" (.str "investigation")),
    ""]
  let situationVal := assocGetD entry "situation" (.obj [])
  let goal ← pyGetOnVal situationVal "goal" (.str "Goal not specified")
  let action ← pyGetOnVal situationVal "action_taken" (.str "Action not specified")
  let expected ← pyGetOnVal situationVal "expected_result"
    (.str "Expected result not specified")
  let actual ← pyGetOnVal situationVal "actual_result" (.str "Actual result not specified")
  let situationLines := ["### Situation",
    "**Goal**: " ++ pyStrVal goal,
    "**Action Taken**: " ++ pyStrVal action,
    "**Expected Result**: " ++ pyStrVal expected,
    "**Actual Result**: " ++ pyStrVal actual,
    ""]
  let debugJourneyVal := assocGetD entry "debug_journey" (.obj [])
  let hypothesis ← pyGetOnVal debugJourneyVal "initial_hypothesis"
    (.str "Initial hypothesis not specified")
  let investigation_path ← pyGetOnVal debugJourneyVal "investigation_path" (.arr [])
  let ipLines ← renderIterBlock investigation_path
    (fun steps => (steps.enumFrom 1).map fun p => toString p.1 ++ ". " ++ pyStrVal p.2)
    ["1. Investigation steps not documented"]
  let dead_ends ← pyGetOnVal debugJourneyVal "dead_ends" (.arr [])
  let deLines ← renderIterBlock dead_ends
    (fun des => des.map fun d => "- " ++ pyStrVal d)
    ["- No dead ends documented"]
  let journeyLines := ["### Debug Journey",
    "**Initial Hypothesis**: " ++ pyStrVal hypothesis,
    "**Investigation Path**:"] ++ ipLines ++ [""] ++
    ["**Dead Ends**:"] ++ deLines ++ [""]
  let resolutionVal := assocGetD entry "resolution" (.obj [])
  let root_cause ← pyGetOnVal resolutionVal "root_cause" (.str "Root cause not identified")
  let solution ← pyGetOnVal resolutionVal "solution" (.str "Solution not specified")
  let verification ← pyGetOnVal resolutionVal "verification"
    (.str "Verification method not specified")
  let resolutionLines := ["### Resolution",
    "**Root Cause**: " ++ pyStrVal root_cause,
    "**Solution**: " ++ pyStrVal solution,
    "**Verification**: " ++ pyStrVal verification,
    ""]
  let ksVal := assocGetD entry "knowledge_synthesis" (.obj [])
  let domain ← pyGetOnVal ksVal "domain_principle" (.str "Domain principle not identified")
  let universal ← pyGetOnVal ksVal "universal_principle"
    (.str "Universal principle not identified")
  let pattern ← pyGetOnVal ksVal "pattern_recognition" (.str "Pattern not identified")
  let mental ← pyGetOnVal ksVal "mental_model" (.str "Mental model not specified")
  let ksLines := ["### Knowledge Synthesis",
    "**Domain Principle**: " ++ pyStrVal domain,
    "**Universal Principle**: " ++ pyStrVal universal,
    "**Pattern Recognition**: " ++ pyStrVal pattern,
    "**Mental Model**: " ++ pyStrVal mental,
    ""]
  let synopsisLines ← renderSynopsisBlock entry
  pure (header ++ situationLines ++ journeyLines ++ resolutionLines ++ ksLines
    ++ synopsisLines)

/-- The `for i, entry in enumerate(learning_entries, 1)` loop of
`_generate_markdown_content` (lines 209–215), with the `---` separator
between entries. -/
def formatEntriesFrom (nowIso : String) (total : Nat) :
    List (List (String × PyVal)) → Nat → Except PyErr (List String)
  | [], _ => .ok []
  | entry :: rest, i => do
    let ls ← _format_learning_entry entry i nowIso
    let sep := if i < total then ["---", ""] else []
    let restLs ← formatEntriesFrom nowIso total rest (i + 1)
    pure (ls ++ sep ++ restLs)

/-- `_generate_markdown_content` (lines 185–217). -/
def _generate_markdown_content (session_id : String) (project_name : String)
    (start_time : String) (learning_entries : List (List (String × PyVal)))
    (nowIso : String) : Except PyErr String := do
  let header := ["# Session Learning Log",
    "**Session ID**: " ++ session_id,
    "**Project**: " ++ project_name,
    "**Start Time**: " ++ start_time,
    ""]
  let entryLines ← formatEntriesFrom nowIso learning_entries.length learning_entries 1
  pure (String.intercalate "\n" (header ++ entryLines))

/-- `save_learning_file` (lines 19–75).  The first component lists the
files written (`open(...).write(...)` happens once, after all potential
raises), the second the returned filepath or the raised exception. -/
def save_learning_file (env : StorageEnv)
    (learning_entries : List (List (String × PyVal))) (session_id : Option String) :
    List FileWrite × Except PyErr String :=
  if learning_entries.isEmpty then
    ([], .error (.valueErr "No learning entries provided to save"))
  else
    let generated := "claude-code-" ++ strftimeYmdHMS env.now
    let sidAndTs : String × PyDateTime :=
      match session_id with
      | some s => if s ≠ "" then (s, sessionTimestampOf env s) else (generated, env.now)
      | none => (generated, env.now)
    let project_name := env.cwdBasename
    let filename := "learning-" ++ strftimeYmdHMS sidAndTs.2 ++ ".md"
    let filepath := env.projectRoot ++ "/knowledge/metacognition/" ++ filename
    match _generate_markdown_content sidAndTs.1 project_name (pyIsoformat sidAndTs.2)
        learning_entries (pyIsoformat env.now) with
    | .ok markdown_content => ([⟨filepath, markdown_content⟩], .ok filepath)
    | .error e => ([], .error e)

/-- `get_learning_file_paths` (lines 78–121). -/
def get_learning_file_paths (env : StorageEnv)
    (learning_entries : List (List (String × PyVal))) (session_id : Option String) :
    Except PyErr (List (String × String)) :=
  if learning_entries.isEmpty then .error (.valueErr "No learning entries provided")
  else
    let timestamp : PyDateTime :=
      match session_id with
      | some s => if s ≠ "" then sessionTimestampOf env s else env.now
      | none => env.now
    let filename := "learning-" ++ strftimeYmdHMS timestamp ++ ".md"
    let filepath := env.projectRoot ++ "/knowledge/metacognition/" ++ filename
    .ok [("absolute", filepath),
         ("relative", "knowledge/metacognition/" ++ filename),
         ("filename", filename)]

/-! ## Supporting lemmas -/

/-- A map whose function preserves first components preserves the key list. -/
theorem map_fst_map_keyPreserving {F : String × String → String × String}
    (h : ∀ p, (F p).1 = p.1) (bs : List (String × String)) :
    (bs.map F).map Prod.fst = bs.map Prod.fst := by
  induction bs with
  | nil => rfl
  | cons p rest ih => simp [h, ih]

/-- Dict assignment at an existing key preserves the key list. -/
theorem bulletsSet_map_fst (bs : List (String × String)) (k v : String)
    (h : k ∈ bs.map Prod.fst) :
    (bulletsSet bs k v).map Prod.fst = bs.map Prod.fst := by
  induction bs with
  | nil => simp at h
  | cons p rest ih =>
    obtain ⟨k', v'⟩ := p
    simp only [bulletsSet]
    cases hk : (k' == k) with
    | true => simp
    | false =>
      simp only [Bool.false_eq_true, if_false, List.map_cons, List.cons.injEq, true_and]
      apply ih
      simp only [List.map_cons, List.mem_cons] at h
      rcases h with h | h
      · subst h; simp at hk
      · exact h

/-- The `max` scan returns its seed or one of the scanned keys. -/
theorem pyMaxWordsKeyAux_mem (l : List (String × String)) :
    ∀ best c, pyMaxWordsKeyAux l best c = best ∨
      pyMaxWordsKeyAux l best c ∈ l.map Prod.fst := by
  induction l with
  | nil => intro best c; left; rfl
  | cons p rest ih =>
    intro best c
    obtain ⟨k, v⟩ := p
    simp only [pyMaxWordsKeyAux]
    split
    · rcases ih k (pySplit v).length with h | h
      · right; simp [h]
      · right; simp [h]
    · rcases ih best c with h | h
      · left; exact h
      · right; simp [h]

/-- `pyMaxWordsKey` returns a key of the dict. -/
theorem pyMaxWordsKey_mem (bs : List (String × String)) (k : String)
    (h : pyMaxWordsKey bs = some k) : k ∈ bs.map Prod.fst := by
  cases bs with
  | nil => simp [pyMaxWordsKey] at h
  | cons p rest =>
    obtain ⟨k', v'⟩ := p
    simp only [pyMaxWordsKey, Option.some.injEq] at h
    rcases pyMaxWordsKeyAux_mem rest k' (pySplit v').length with h' | h'
    · rw [h] at h'
      simp [h']
    · rw [h] at h'
      exact List.mem_cons_of_mem _ h'

/-- `_compress_bullets` preserves the key list. -/
theorem compress_bullets_map_fst (n : Nat) :
    ∀ bs, (SynopsisGenerator._compress_bullets bs n).map Prod.fst = bs.map Prod.fst := by
  induction n with
  | zero => intro bs; rfl
  | succ n ih =>
    intro bs
    simp only [SynopsisGenerator._compress_bullets]
    cases hmx : pyMaxWordsKey bs with
    | none => simp only [hmx]
    | some k =>
      simp only [hmx]
      split
      · rw [ih, bulletsSet_map_fst]
        exact pyMaxWordsKey_mem _ _ hmx
      · rfl

/-- `_expand_bullets` preserves the key list. -/
theorem expand_bullets_map_fst (bs : List (String × String)) (w : Nat) :
    (SynopsisGenerator._expand_bullets bs w).map Prod.fst = bs.map Prod.fst := by
  simp only [SynopsisGenerator._expand_bullets]
  apply map_fst_map_keyPreserving
  intro p
  split <;> split <;> rfl

/-- `_adjust_word_count` preserves the key list. -/
theorem adjust_word_count_map_fst (bs : List (String × String)) :
    (SynopsisGenerator._adjust_word_count bs).map Prod.fst = bs.map Prod.fst := by
  simp only [SynopsisGenerator._adjust_word_count]
  split
  · exact expand_bullets_map_fst _ _
  · split
    · exact compress_bullets_map_fst _ _
    · rfl

/-- C4: every synopsis returned by `generate_synopsis` or
`create_synopsis_from_session_data` is a title plus a bullets dict whose
keys are exactly `symptoms, context, root_cause, fix, applies_when` (in
that insertion order); in particular `_adjust_word_count` (with
`_expand_bullets` and `_compress_bullets`) preserves the key list of any
bullets dict. -/
theorem claim_C4_synopsis_shape :
    (∀ entry : LearningEntryData,
      (SynopsisGenerator.generate_synopsis entry).bullets.map Prod.fst = synopsisKeys)
    ∧ (∀ sd : SessionData,
      (SynopsisGenerator.create_synopsis_from_session_data sd).bullets.map Prod.fst
        = synopsisKeys)
    ∧ (∀ bs : List (String × String),
      (SynopsisGenerator._adjust_word_count bs).map Prod.fst = bs.map Prod.fst) := by
  refine ⟨fun entry => ?_, fun sd => ?_, adjust_word_count_map_fst⟩
  · show (SynopsisGenerator._adjust_word_count
      (SynopsisGenerator._generate_bullets entry)).map Prod.fst = _
    rw [adjust_word_count_map_fst]
    rfl
  · cases h : sd.debugging_experiences with
    | nil =>
      simp only [SynopsisGenerator.create_synopsis_from_session_data, h]
      rfl
    | cons exp rest =>
      simp only [SynopsisGenerator.create_synopsis_from_session_data, h]
      rw [adjust_word_count_map_fst]
      rfl

/-- Length of a Python slice `s[:n]`. -/
theorem pySliceTo_length (s : String) (n : Nat) :
    (pySliceTo s n).length = min n s.length := by
  show (s.data.take n).length = _
  simp

/-- The word-accumulation loop of `_generate_title_from_problem` never
builds more than 117 characters from a start within that bound. -/
theorem buildTitleWords_length_le (ws : List String) :
    ∀ t : String, t.length ≤ 117 →
      (SynopsisGenerator.buildTitleWords ws t).length ≤ 117 := by
  induction ws with
  | nil => intro t ht; exact ht
  | cons w rest ih =>
    intro t ht
    simp only [SynopsisGenerator.buildTitleWords]
    split
    · next hfit =>
      apply ih
      split
      · exact hfit
      · next hte =>
        have := hfit
        rw [String.length_append, String.length_append] at this
        simp only [ne_eq, not_not] at hte
        subst hte
        simp only [String.length_empty] at this
        omega
    · exact ht

/-- `_generate_title_from_problem` always stays within 120 characters. -/
theorem generate_title_from_problem_le (s : String) :
    (SynopsisGenerator._generate_title_from_problem s).length ≤ 120 := by
  unfold SynopsisGenerator._generate_title_from_problem
  split
  · decide
  · dsimp only
    split
    · next h => exact h
    · next h =>
      rw [if_pos (by omega)]
      rw [String.length_append]
      have := buildTitleWords_length_le
        (pySplit ⟨s.data.filter SynopsisGenerator.keepTitleChar⟩) "" (by decide)
      have h3 : ("..." : String).length = 3 := by decide
      omega

/-- `_generate_title` always stays within 120 characters (the final
truncation check guarantees it on every branch). -/
theorem generate_title_le (entry : LearningEntryData) :
    (SynopsisGenerator._generate_title entry).length ≤ 120 := by
  unfold SynopsisGenerator._generate_title
  dsimp only
  split <;>
  · split
    · rw [String.length_append, pySliceTo_length]
      have h3 : ("..." : String).length = 3 := by decide
      omega
    · next h => omega

/-- C9: every title produced by `SynopsisGenerator._generate_title` (from a
learning entry) or `SynopsisGenerator._generate_title_from_problem` (from a
problem description) is a string of at most 120 characters. -/
theorem claim_C9_title_length :
    (∀ entry : LearningEntryData,
      (SynopsisGenerator._generate_title entry).length ≤ 120)
    ∧ (∀ problem_desc : String,
      (SynopsisGenerator._generate_title_from_problem problem_desc).length ≤ 120) :=
  ⟨generate_title_le, generate_title_from_problem_le⟩

/-- C6: with a `"timestamp"` key present in the session dictionary,
`create_learning_entries` does not depend on its only hidden input (the
`datetime.now()` default), so two calls with equal arguments yield equal
lists of learning entries. -/
theorem claim_C6_deterministic (sd : SessionData) (t : String) (v2 : Bool)
    (now1 now2 : String) (h : sd.timestamp = some t) :
    create_learning_entries sd v2 now1 = create_learning_entries sd v2 now2 := by
  unfold create_learning_entries
  rw [h]

/-- Every entry built by `_create_single_learning_entry` starts with its
`"id"` pair. -/
theorem single_entry_head (ex : Experience) (eid ts : String)
    (sdo : Option SessionData) (v2 : Bool) :
    ∃ rest, _create_single_learning_entry ex eid ts sdo v2 =
      ("id", PyVal.str eid) :: rest := by
  unfold _create_single_learning_entry
  dsimp only
  cases v2
  · exact ⟨_, rfl⟩
  · cases sdo <;> exact ⟨_, rfl⟩

/-- The `"id"` field of a built entry is the entry id it was given. -/
theorem single_entry_id (ex : Experience) (eid ts : String)
    (sdo : Option SessionData) (v2 : Bool) :
    assocGetD (_create_single_learning_entry ex eid ts sdo v2) "id" PyVal.null
      = .str eid := by
  obtain ⟨rest, h⟩ := single_entry_head ex eid ts sdo v2
  rw [h]
  simp [assocGetD]

/-- The key list of a built entry: the seven base keys followed by the
version-dependent additions. -/
theorem single_entry_keys (ex : Experience) (eid ts : String)
    (sdo : Option SessionData) (v2 : Bool) :
    ∃ extra, (_create_single_learning_entry ex eid ts sdo v2).map Prod.fst =
      ["id", "timestamp", "trigger", "situation", "debug_journey", "resolution",
       "knowledge_synthesis"] ++ extra := by
  unfold _create_single_learning_entry
  dsimp only
  cases v2
  · exact ⟨["version"], by simp⟩
  · cases sdo
    · exact ⟨["version", "synopsis", "title"], by simp⟩
    · exact ⟨["version", "synopsis", "title", "embedding_fields"], by simp⟩

/-- The enumeration loop produces one entry per experience. -/
theorem createEntriesFrom_length (sd : SessionData) (ts : String) (v2 : Bool) :
    ∀ (exps : List Experience) (start : Nat),
      (createEntriesFrom sd ts v2 exps start).length = exps.length := by
  intro exps
  induction exps with
  | nil => intro start; rfl
  | cons e rest ih => intro start; simp [createEntriesFrom, ih]

/-- Index-wise description of the enumeration loop. -/
theorem createEntriesFrom_getElem? (sd : SessionData) (ts : String) (v2 : Bool) :
    ∀ (exps : List Experience) (start i : Nat),
      (createEntriesFrom sd ts v2 exps start)[i]? =
        (exps[i]?).map (fun ex =>
          _create_single_learning_entry ex ("L" ++ pyFormat3 (start + i)) ts (some sd) v2) := by
  intro exps
  induction exps with
  | nil => intro start i; simp [createEntriesFrom]
  | cons e rest ih =>
    intro start i
    cases i with
    | zero => simp [createEntriesFrom]
    | succ i =>
      simp only [createEntriesFrom, List.getElem?_cons_succ]
      rw [show start + (i + 1) = start + 1 + i from by omega]
      exact ih (start + 1) i

/-- Every element of the enumeration loop's output is a built entry. -/
theorem createEntriesFrom_mem (sd : SessionData) (ts : String) (v2 : Bool) :
    ∀ (exps : List Experience) (start : Nat) (e : List (String × PyVal)),
      e ∈ createEntriesFrom sd ts v2 exps start →
      ∃ ex eid, e = _create_single_learning_entry ex eid ts (some sd) v2 := by
  intro exps
  induction exps with
  | nil => intro start e he; simp [createEntriesFrom] at he
  | cons x rest ih =>
    intro start e he
    simp only [createEntriesFrom, List.mem_cons] at he
    rcases he with he | he
    · exact ⟨x, "L" ++ pyFormat3 start, he⟩
    · exact ih (start + 1) e he

/-- C5: `create_learning_entries` returns exactly one learning entry per
debugging experience, in order; the `i`-th entry (1-based) is built from
the `i`-th experience with id `"L"` followed by `i` zero-padded to three
digits; and every entry contains the keys `id`, `timestamp`, `trigger`,
`situation`, `debug_journey`, `resolution` and `knowledge_synthesis`. -/
theorem claim_C5_entry_list (sd : SessionData) (v2 : Bool) (nowIso : String) :
    (create_learning_entries sd v2 nowIso).length = sd.debugging_experiences.length
    ∧ (∀ i : Nat, (create_learning_entries sd v2 nowIso)[i]? =
        (sd.debugging_experiences[i]?).map (fun ex =>
          _create_single_learning_entry ex ("L" ++ pyFormat3 (i + 1))
            (match sd.timestamp with | some t => t | none => nowIso) (some sd) v2))
    ∧ (∀ i : Nat, ((create_learning_entries sd v2 nowIso)[i]?).map
        (fun e => assocGetD e "id" PyVal.null) =
        (sd.debugging_experiences[i]?).map (fun _ => PyVal.str ("L" ++ pyFormat3 (i + 1))))
    ∧ (∀ e ∈ create_learning_entries sd v2 nowIso,
        ∀ k ∈ (["id", "timestamp", "trigger", "situation", "debug_journey", "resolution",
          "knowledge_synthesis"] : List String), k ∈ e.map Prod.fst) := by
  refine ⟨?_, ?_, ?_, ?_⟩
  · exact createEntriesFrom_length sd _ v2 sd.debugging_experiences 1
  · intro i
    have h := createEntriesFrom_getElem? sd
      (match sd.timestamp with | some t => t | none => nowIso) v2
      sd.debugging_experiences 1 i
    rw [Nat.add_comm 1 i] at h
    exact h
  · intro i
    have h := createEntriesFrom_getElem? sd
      (match sd.timestamp with | some t => t | none => nowIso) v2
      sd.debugging_experiences 1 i
    rw [Nat.add_comm 1 i] at h
    show ((createEntriesFrom sd _ v2 sd.debugging_experiences 1)[i]?).map _ = _
    rw [h]
    cases sd.debugging_experiences[i]? with
    | none => rfl
    | some ex => simp [single_entry_id]
  · intro e he k hk
    obtain ⟨ex, eid, rfl⟩ := createEntriesFrom_mem sd _ v2 sd.debugging_experiences 1 e he
    obtain ⟨extra, hkeys⟩ := single_entry_keys ex eid _ (some sd) v2
    rw [hkeys]
    exact List.mem_append_left _ hk

/-- A concrete debugging experience for witnesses. -/
def expEx : Experience :=
  { problem_description := "Import error in module loading"
    investigation_steps := ["Checked the working directory", "Fixed the path"]
    solution_applied := "Set the correct path"
    outcome := "Resolved successfully" }

/-- A concrete session dictionary (with a `"timestamp"` key) for witnesses. -/
def sdEx : SessionData :=
  { debugging_experiences := [expEx]
    timestamp := some "2024-01-01T00:00:00"
    project_context := "archon" }

/-- Witness for C5 at a concrete session: one entry, whose key list starts
with `id`. -/
theorem claim_C5_witness :
    (create_learning_entries sdEx true "unused-now").length = 1
    ∧ "id" ∈ (_create_single_learning_entry expEx ("L" ++ pyFormat3 1)
        "2024-01-01T00:00:00" (some sdEx) true).map Prod.fst := by
  constructor
  · exact (claim_C5_entry_list sdEx true "unused-now").1
  · exact (claim_C5_entry_list sdEx true "unused-now").2.2.2
      (_create_single_learning_entry expEx ("L" ++ pyFormat3 1)
        "2024-01-01T00:00:00" (some sdEx) true)
      (List.mem_cons_self _ _) "id" (by simp)

/-- Witness for C6 at a concrete session: two different `now` defaults give
the same entry list. -/
theorem claim_C6_witness :
    create_learning_entries sdEx true "now-A" = create_learning_entries sdEx true "now-B" :=
  claim_C6_deterministic sdEx "2024-01-01T00:00:00" true "now-A" "now-B" rfl

/-- C1: a well-formed JSON-RPC 2.0 request for a registered tool whose
handler returns normally dispatches to that handler exactly once and is
answered with the success envelope carrying the request id and the
handler's return value — `json.loads`-parsed when the handler returned a
string, passed through unchanged otherwise. -/
theorem claim_C1_dispatch (loads : String → Except String PyVal)
    (tools : List (String × ToolHandler)) (fs : List (String × PyVal))
    (m : String) (tool : String × ToolHandler) (r : ToolRet) (v : PyVal)
    (hrpc : assocGetD fs "jsonrpc" PyVal.null = .str "2.0")
    (hm : assocGetD fs "method" PyVal.null = .str m)
    (hm0 : m ≠ "")
    (hfind : tools.find? (fun p => p.1 == m) = some tool)
    (hcall : tool.2 (if pyTruthy (assocGetD fs "params" (PyVal.obj []))
        then some (assocGetD fs "params" (PyVal.obj [])) else none) = .ok r)
    (hres : match r with
            | .s text => loads text = .ok v
            | .v v' => v' = v) :
    mcp_http_endpoint loads tools (some (.obj fs)) =
      .ok (successEnvelope (assocGetD fs "id" PyVal.null) v, 1) := by
  unfold mcp_http_endpoint
  dsimp only
  rw [hrpc, hm]
  have h20 : pyEqStrVal (PyVal.str "2.0") "2.0" = true := by simp [pyEqStrVal]
  have hmT : pyTruthy (PyVal.str m) = true := by simp [pyTruthy, hm0]
  rw [h20, hmT]
  simp only [Bool.not_true, Bool.false_eq_true, if_false, lookupTool, hfind]
  rw [hcall]
  cases r with
  | s text =>
    have hl : loads text = .ok v := hres
    simp only [hl]
  | v v' =>
    have hv : v' = v := hres
    subst hv
    rfl

/-- A concrete `json.loads` for witnesses: parses only the empty object. -/
def loads0 : String → Except String PyVal := fun s =>
  if s = "\x7b\x7d" then .ok (.obj [])
  else .error "Expecting value: line 1 column 1 (char 0)"

/-- A concrete tool handler returning the JSON string `"{}"`. -/
def handler0 : ToolHandler := fun _ => .ok (.s "\x7b\x7d")

/-- A concrete one-tool registry. -/
def tools0 : List (String × ToolHandler) := [("health_check", handler0)]

/-- A well-formed request body naming the registered tool. -/
def body1 : List (String × PyVal) :=
  [("jsonrpc", .str "2.0"), ("method", .str "health_check"), ("id", .num 1)]

/-- Witness for C1: the concrete request is answered with the success
envelope holding `json.loads` of the handler's string result. -/
theorem claim_C1_witness :
    mcp_http_endpoint loads0 tools0 (some (.obj body1)) =
      .ok (successEnvelope (PyVal.num 1) (PyVal.obj []), 1) :=
  claim_C1_dispatch loads0 tools0 body1 "health_check" ("health_check", handler0)
    (.s "\x7b\x7d") (.obj []) rfl rfl (by decide) rfl rfl rfl

/-- C2 (amended): a JSON-RPC 2.0 request whose method is a non-empty
string naming no registered tool invokes no handler and is answered with
the `-32601` envelope carrying the request id and the registry's method
names. -/
theorem claim_C2_amended_not_found (loads : String → Except String PyVal)
    (tools : List (String × ToolHandler)) (fs : List (String × PyVal)) (m : String)
    (hrpc : assocGetD fs "jsonrpc" PyVal.null = .str "2.0")
    (hm : assocGetD fs "method" PyVal.null = .str m)
    (hm0 : m ≠ "")
    (hfind : tools.find? (fun p => p.1 == m) = none) :
    mcp_http_endpoint loads tools (some (.obj fs)) =
      .ok (errorEnvelope (assocGetD fs "id" PyVal.null) (-32601)
        ("Method not found: " ++ m)
        (some (.obj [("available_methods", .arr (tools.map fun p => .str p.1))])), 0) := by
  unfold mcp_http_endpoint
  dsimp only
  rw [hrpc, hm]
  have h20 : pyEqStrVal (PyVal.str "2.0") "2.0" = true := by simp [pyEqStrVal]
  have hmT : pyTruthy (PyVal.str m) = true := by simp [pyTruthy, hm0]
  rw [h20, hmT]
  simp only [Bool.not_true, Bool.false_eq_true, if_false, lookupTool, hfind, pyStrVal]

/-- The integer error code carried by an endpoint result (0 when the
result is not an error envelope); used to discriminate envelopes. -/
def intOfErrCode (x : Except PyErr (PyVal × Nat)) : Int :=
  match x with
  | .ok p =>
    match p.1 with
    | .obj fs =>
      match assocGetD fs "error" .null with
      | .obj es =>
        match assocGetD es "code" .null with
        | .num n => n
        | _ => 0
      | _ => 0
    | _ => 0
  | .error _ => 0

/-- A JSON-RPC 2.0 request whose method is the empty string (not a key of
the registry). -/
def body2 : List (String × PyVal) :=
  [("jsonrpc", .str "2.0"), ("method", .str ""), ("id", .num 1)]

/-- Counterexample to C2 as stated: for the well-formed request with
method `""` — a string that is not a key of the registry — the endpoint
answers `-32600 "Missing 'method' field"` (the `if not method:` guard
fires on the falsy empty string), not the `-32601` method-not-found
envelope the claim prescribes. -/
theorem claim_C2_counterexample :
    mcp_http_endpoint loads0 tools0 (some (.obj body2)) =
      .ok (errorEnvelope (.num 1) (-32600) "Missing 'method' field" none, 0)
    ∧ mcp_http_endpoint loads0 tools0 (some (.obj body2)) ≠
      .ok (errorEnvelope (.num 1) (-32601) "Method not found: "
        (some (.obj [("available_methods", .arr [.str "health_check"])])), 0) :=
  ⟨rfl, fun h => absurd (congrArg intOfErrCode h) (by decide)⟩

/-- A JSON-RPC 2.0 request naming an unregistered tool. -/
def body3 : List (String × PyVal) :=
  [("jsonrpc", .str "2.0"), ("method", .str "unknown_tool"), ("id", .str "7")]

/-- Witness for the amended C2 at a concrete request. -/
theorem claim_C2_witness :
    mcp_http_endpoint loads0 tools0 (some (.obj body3)) =
      .ok (errorEnvelope (.str "7") (-32601) "Method not found: unknown_tool"
        (some (.obj [("available_methods", .arr [.str "health_check"])])), 0) :=
  claim_C2_amended_not_found loads0 tools0 body3 "unknown_tool" rfl rfl (by decide) rfl

/-- C3 evaluated on each of its cases: an invalid-JSON body is answered
`-32700` with id `null`; a wrong `jsonrpc` value and a missing `method`
are answered `-32600` with the validation message; but a JSON body that
is *not an object* makes the `except HTTPException` handler itself
evaluate `body.get("id")` on the non-dict value, so an `AttributeError`
escapes and no JSON-RPC envelope is produced (the claim's `-32600`
prediction fails on this case). -/
theorem claim_C3_validation_eval :
    mcp_http_endpoint loads0 tools0 none =
      .ok (errorEnvelope .null (-32700) "Parse error: Invalid JSON" none, 0)
    ∧ mcp_http_endpoint loads0 tools0 (some (.arr [.num 1, .num 2])) =
      .error (.attributeErr "'body' object has no attribute 'get'")
    ∧ mcp_http_endpoint loads0 tools0
        (some (.obj [("jsonrpc", .str "1.0"), ("method", .str "health_check"),
          ("id", .num 3)])) =
      .ok (errorEnvelope (.num 3) (-32600) "Must be JSON-RPC 2.0" none, 0)
    ∧ mcp_http_endpoint loads0 tools0 (some (.obj [("jsonrpc", .str "2.0"), ("id", .num 4)])) =
      .ok (errorEnvelope (.num 4) (-32600) "Missing 'method' field" none, 0) :=
  ⟨rfl, rfl, rfl, rfl⟩

/-- A successful initialisation leaves `_initialized` set whenever the
crawler is present. -/
theorem initCrawler_ok_initialized (env : CrawlEnv) (s : CrawlerState) (c : Crawler)
    (hok : (CrawlerManager.initCrawler env s).2 = none)
    (hc : (CrawlerManager.initCrawler env s).1._crawler = some c) :
    (CrawlerManager.initCrawler env s).1._initialized = true := by
  unfold CrawlerManager.initCrawler at *
  cases hcond : (s._initialized && s._crawler.isSome) with
  | true =>
    simp only [hcond, if_true] at hc ⊢
    exact (Bool.and_eq_true _ _ |>.mp hcond).1
  | false =>
    simp only [hcond, Bool.false_eq_true, if_false] at hc hok ⊢
    cases henv : env.crawl4aiResult with
    | ok c' => simp [henv]
    | error e =>
      cases hfb : env.fallbackResult with
      | ok c' => simp [henv, hfb]
      | error fe =>
        rw [henv, hfb] at hok
        simp at hok

/-- C7: `CrawlerManager` is a lazily-initialised singleton — a second
`CrawlerManager()` returns the very instance the first one produced and
leaves the state untouched; and once `initialize` has succeeded,
`get_crawler` returns the crawler that initialisation stored, in any later
environment, without changing the state (initialisation does not run
again). -/
theorem claim_C7_singleton (s : CrawlerState) (env envLater : CrawlEnv) (c : Crawler) :
    ((CrawlerManager.new (CrawlerManager.new s).2).1 = (CrawlerManager.new s).1
      ∧ (CrawlerManager.new (CrawlerManager.new s).2).2 = (CrawlerManager.new s).2)
    ∧ ((CrawlerManager.initCrawler env s).2 = none →
       (CrawlerManager.initCrawler env s).1._crawler = some c →
       CrawlerManager.get_crawler envLater (CrawlerManager.initCrawler env s).1 =
         ((CrawlerManager.initCrawler env s).1, .ok (some c))) := by
  constructor
  · cases hins : s.instanceId with
    | some i => simp [CrawlerManager.new, hins]
    | none => simp [CrawlerManager.new, hins]
  · intro hok hc
    have hinit := initCrawler_ok_initialized env s c hok hc
    unfold CrawlerManager.get_crawler
    rw [hinit, hc]
    simp

/-- The fresh state: no instance, nothing initialised. -/
def crawlerS0 : CrawlerState :=
  { instanceId := none, nextId := 0, _crawler := none,
    _initialized := false, _using_fallback := false }

/-- An environment where the browser crawler comes up. -/
def crawlEnvOk : CrawlEnv :=
  { crawl4aiResult := .ok (.crawl4ai 0), fallbackResult := .ok (.fallback 1) }

/-- A later environment where both initialisations would fail —
irrelevant, since initialisation does not run again. -/
def crawlEnvDown : CrawlEnv :=
  { crawl4aiResult := .error "playwright exploded",
    fallbackResult := .error "httpx exploded" }

/-- Witness for C7: after a successful initialisation from the fresh
state, `get_crawler` returns the stored crawler even in an environment
where initialisation would fail. -/
theorem claim_C7_witness :
    CrawlerManager.get_crawler crawlEnvDown (CrawlerManager.initCrawler crawlEnvOk crawlerS0).1 =
      ((CrawlerManager.initCrawler crawlEnvOk crawlerS0).1, .ok (some (.crawl4ai 0))) :=
  (claim_C7_singleton crawlerS0 crawlEnvOk crawlEnvDown (.crawl4ai 0)).2 rfl rfl

/-- C8: when the browser-crawler initialisation raises, `initialize`
falls back to the HTTP scraper and marks the manager initialised with
`_using_fallback` set; when the fallback also fails, `initialize` raises
with `_crawler = None`, `_initialized = False`, `_using_fallback = False`;
and `initialize` raises only when both initialisations failed. -/
theorem claim_C8_fallback (env : CrawlEnv) (s : CrawlerState) (e fe : String) (c : Crawler)
    (hrun : (s._initialized && s._crawler.isSome) = false) :
    (env.crawl4aiResult = .error e → env.fallbackResult = .ok c →
      CrawlerManager.initCrawler env s =
        ({ s with _crawler := some c, _initialized := true, _using_fallback := true },
         none))
    ∧ (env.crawl4aiResult = .error e → env.fallbackResult = .error fe →
      CrawlerManager.initCrawler env s =
        ({ s with _crawler := none, _initialized := false, _using_fallback := false },
         some ("Both Crawl4AI and fallback crawler failed: " ++ e ++ ", " ++ fe)))
    ∧ ((CrawlerManager.initCrawler env s).2 ≠ none →
        ∃ e' fe', env.crawl4aiResult = .error e' ∧ env.fallbackResult = .error fe') := by
  refine ⟨fun h1 h2 => ?_, fun h1 h2 => ?_, fun hraise => ?_⟩
  · unfold CrawlerManager.initCrawler
    rw [hrun, h1, h2]
    rfl
  · unfold CrawlerManager.initCrawler
    rw [hrun, h1, h2]
    rfl
  · unfold CrawlerManager.initCrawler at hraise
    split at hraise
    · simp at hraise
    · cases henv : env.crawl4aiResult with
      | ok c' => simp [henv] at hraise
      | error e' =>
        cases hfb : env.fallbackResult with
        | ok c' => simp [henv, hfb] at hraise
        | error fe' => exact ⟨e', fe', rfl, rfl⟩

/-- An environment where only the fallback comes up. -/
def crawlEnvFallback : CrawlEnv :=
  { crawl4aiResult := .error "BrowserType.launch failed",
    fallbackResult := .ok (.fallback 5) }

/-- Witness for C8: from the fresh state, a failing browser crawler plus a
working fallback leaves the manager initialised on the fallback. -/
theorem claim_C8_witness :
    CrawlerManager.initCrawler crawlEnvFallback crawlerS0 =
      ({ crawlerS0 with
          _crawler := some (.fallback 5)
          _initialized := true
          _using_fallback := true }, none) :=
  (claim_C8_fallback crawlEnvFallback crawlerS0 "BrowserType.launch failed"
    "unused" (.fallback 5) rfl).1 rfl rfl

/-- Values on which a `.get(...)` chain succeeds: dicts. -/
def wfSection (v : PyVal) : Bool :=
  match v with
  | .obj _ => true
  | _ => false

/-- Values whose `if x: for step in x:` block raises nothing: iterables,
or falsy scalars (iteration skipped). -/
def iterOk (v : PyVal) : Bool :=
  match v with
  | .arr _ => true
  | .str _ => true
  | .obj _ => true
  | .num n => n == 0
  | .bool b => !b
  | .null => true

/-- A structured learning-entry dictionary, as the docstrings of
`save_learning_file` demand: section values (when present) are dicts,
investigation path and dead ends iterate without a `TypeError`, and a
present synopsis is a dict whose `bullets` (when present) is a dict.
Every entry built by `create_learning_entries` satisfies this. -/
def wfEntry (e : List (String × PyVal)) : Bool :=
  wfSection (assocGetD e "situation" (.obj []))
  && wfSection (assocGetD e "debug_journey" (.obj []))
  && (match assocGetD e "debug_journey" (.obj []) with
      | .obj fs => iterOk (assocGetD fs "investigation_path" (.arr []))
          && iterOk (assocGetD fs "dead_ends" (.arr []))
      | _ => false)
  && wfSection (assocGetD e "resolution" (.obj []))
  && wfSection (assocGetD e "knowledge_synthesis" (.obj []))
  && (if assocHasKey e "synopsis" then
        match assocGetD e "synopsis" PyVal.null with
        | .obj sfs =>
          if assocHasKey sfs "bullets" then wfSection (assocGetD sfs "bullets" PyVal.null)
          else true
        | _ => false
      else true)

/-- A well-formed section value is a dict. -/
theorem wfSection_obj (v : PyVal) (h : wfSection v = true) : ∃ fs, v = .obj fs := by
  cases v <;> simp [wfSection] at h ⊢

/-- When the key is present, subscripting returns the same value `.get`
finds. -/
theorem assocHasKey_subscript (fs : List (String × PyVal)) (k : String)
    (h : assocHasKey fs k = true) :
    pySubscript (.obj fs) k = .ok (assocGetD fs k .null) := by
  unfold assocHasKey at h
  unfold pySubscript assocGetD
  cases hf : fs.find? (fun p => p.1 == k) with
  | none => rw [hf] at h; simp at h
  | some p => simp [hf]

/-- An `if x: for ... in x:` rendering block never raises on an `iterOk`
value. -/
theorem iter_lines_ok (v : PyVal) (h : iterOk v = true)
    (g : List PyVal → List String) (dflt : List String) :
    ∃ r, renderIterBlock v g dflt = .ok r := by
  unfold renderIterBlock
  cases v with
  | arr xs =>
    cases h' : pyTruthy (PyVal.arr xs) with
    | false => exact ⟨dflt, by simp [h']; rfl⟩
    | true => exact ⟨g xs, by simp [h', pyIterVals]⟩
  | str s =>
    cases h' : pyTruthy (PyVal.str s) with
    | false => exact ⟨dflt, by simp [h']; rfl⟩
    | true => exact ⟨g (s.data.map fun c => .str ⟨[c]⟩), by simp [h', pyIterVals]⟩
  | obj fs =>
    cases h' : pyTruthy (PyVal.obj fs) with
    | false => exact ⟨dflt, by simp [h']; rfl⟩
    | true => exact ⟨g (fs.map fun p => .str p.1), by simp [h', pyIterVals]⟩
  | num n =>
    have hn : n = 0 := by simpa [iterOk] using h
    subst hn
    exact ⟨dflt, rfl⟩
  | bool b =>
    have hb : b = false := by simpa [iterOk] using h
    subst hb
    exact ⟨dflt, rfl⟩
  | null => exact ⟨dflt, rfl⟩

/-- Monadic bind on a successful `Except` computation. -/
theorem bindOk {e a b : Type} (x : a) (f : a → Except e b) :
    Bind.bind (Except.ok x) f = f x := rfl

/-- `pure` on `Except` is `.ok`. -/
theorem pureOk {e a : Type} (x : a) : (pure x : Except e a) = Except.ok x := rfl

/-- The synopsis section of the rendering raises nothing on a well-formed
entry. -/
theorem renderSynopsisBlock_ok (e : List (String × PyVal))
    (h6 : (if assocHasKey e "synopsis" then
        match assocGetD e "synopsis" PyVal.null with
        | .obj sfs =>
          if assocHasKey sfs "bullets" then wfSection (assocGetD sfs "bullets" PyVal.null)
          else true
        | _ => false
      else true) = true) :
    ∃ ls, renderSynopsisBlock e = .ok ls := by
  unfold renderSynopsisBlock
  cases hsk : assocHasKey e "synopsis" with
  | false => exact ⟨[], by simp [hsk]; rfl⟩
  | true =>
    simp only [hsk, if_true] at h6 ⊢
    rw [assocHasKey_subscript e "synopsis" hsk]
    cases hv : assocGetD e "synopsis" PyVal.null with
    | obj sfs =>
      rw [hv] at h6
      dsimp only at h6
      simp only [bindOk, pyHasMember]
      cases hb : assocHasKey sfs "bullets" with
      | false =>
        simp only [hb, Bool.false_eq_true, if_false]
        exact ⟨_, rfl⟩
      | true =>
        simp only [hb, if_true] at h6
        obtain ⟨bfs, hbv⟩ := wfSection_obj _ h6
        simp only [hb, if_true]
        rw [assocHasKey_subscript sfs "bullets" hb, hbv]
        simp only [bindOk, pyGetOnVal]
        exact ⟨_, rfl⟩
    | null => rw [hv] at h6; simp at h6
    | str sv => rw [hv] at h6; simp at h6
    | num nv => rw [hv] at h6; simp at h6
    | bool bv => rw [hv] at h6; simp at h6
    | arr xv => rw [hv] at h6; simp at h6

/-- Rendering a well-formed entry raises nothing. -/
theorem format_learning_entry_ok (e : List (String × PyVal)) (n : Nat) (now : String)
    (hwf : wfEntry e = true) :
    ∃ ls, _format_learning_entry e n now = .ok ls := by
  unfold wfEntry at hwf
  simp only [Bool.and_eq_true] at hwf
  obtain ⟨⟨⟨⟨⟨h1, h2⟩, h3⟩, h4⟩, h5⟩, h6⟩ := hwf
  obtain ⟨sfs, hs⟩ := wfSection_obj _ h1
  obtain ⟨dfs, hd⟩ := wfSection_obj _ h2
  obtain ⟨rfs, hr⟩ := wfSection_obj _ h4
  obtain ⟨kfs, hk⟩ := wfSection_obj _ h5
  rw [hd] at h3
  dsimp only at h3
  rw [Bool.and_eq_true] at h3
  obtain ⟨h3a, h3b⟩ := h3
  obtain ⟨ipr, hip⟩ := iter_lines_ok _ h3a
    (fun steps => (steps.enumFrom 1).map fun p => toString p.1 ++ ". " ++ pyStrVal p.2)
    ["1. Investigation steps not documented"]
  obtain ⟨der, hde⟩ := iter_lines_ok _ h3b
    (fun des => des.map fun d => "- " ++ pyStrVal d)
    ["- No dead ends documented"]
  obtain ⟨snr, hsyn⟩ := renderSynopsisBlock_ok e h6
  unfold _format_learning_entry
  dsimp only
  rw [hs, hd, hr, hk]
  simp only [pyGetOnVal, bindOk, hip, hde, hsyn, pureOk]
  exact ⟨_, rfl⟩

/-- The entry loop of the markdown generator succeeds on well-formed
entries. -/
theorem formatEntriesFrom_ok (now : String) (total : Nat) :
    ∀ (es : List (List (String × PyVal))) (start : Nat),
      (∀ e ∈ es, wfEntry e = true) →
      ∃ ls, formatEntriesFrom now total es start = .ok ls := by
  intro es
  induction es with
  | nil => intro start _; exact ⟨[], rfl⟩
  | cons e rest ih =>
    intro start hwf
    obtain ⟨l1, h1⟩ := format_learning_entry_ok e start now (hwf e (List.mem_cons_self _ _))
    obtain ⟨lr, h2⟩ := ih (start + 1) (fun x hx => hwf x (List.mem_cons_of_mem _ hx))
    simp only [formatEntriesFrom, h1, bindOk, h2, pureOk]
    exact ⟨_, rfl⟩

/-- The full markdown generation succeeds on well-formed entries. -/
theorem generate_markdown_content_ok (sid pn st : String)
    (es : List (List (String × PyVal))) (now : String)
    (hwf : ∀ e ∈ es, wfEntry e = true) :
    ∃ content, _generate_markdown_content sid pn st es now = .ok content := by
  obtain ⟨ls, hls⟩ := formatEntriesFrom_ok now es.length es 1 hwf
  simp only [_generate_markdown_content, hls, bindOk, pureOk]
  exact ⟨_, rfl⟩

/-- C10: `save_learning_file` and `get_learning_file_paths` raise
`ValueError` exactly on an empty entry list — and then `save_learning_file`
writes no file; on any non-empty list of structured learning-entry
dictionaries both proceed, `save_learning_file` writing one file and
returning its path, `get_learning_file_paths` returning the path
dictionary. -/
theorem claim_C10_empty_check (env : StorageEnv)
    (entries : List (List (String × PyVal))) (sid : Option String)
    (hne : entries ≠ [])
    (hwf : ∀ e ∈ entries, wfEntry e = true) :
    (∀ sid2 : Option String, save_learning_file env [] sid2 =
        ([], .error (.valueErr "No learning entries provided to save")))
    ∧ (∀ sid2 : Option String, get_learning_file_paths env [] sid2 =
        .error (.valueErr "No learning entries provided"))
    ∧ (∃ p content, save_learning_file env entries sid = ([⟨p, content⟩], .ok p))
    ∧ (∃ d, get_learning_file_paths env entries sid = .ok d) := by
  have hemp : entries.isEmpty = false := by
    cases entries with
    | nil => exact absurd rfl hne
    | cons a l => rfl
  refine ⟨fun _ => rfl, fun _ => rfl, ?_, ?_⟩
  · cases sid with
    | none =>
      obtain ⟨content, hc⟩ := generate_markdown_content_ok
        ("claude-code-" ++ strftimeYmdHMS env.now) env.cwdBasename
        (pyIsoformat env.now) entries (pyIsoformat env.now) hwf
      simp only [save_learning_file, hemp, Bool.false_eq_true, if_false, hc]
      exact ⟨_, _, rfl⟩
    | some s =>
      by_cases hse : s = ""
      · subst hse
        obtain ⟨content, hc⟩ := generate_markdown_content_ok
          ("claude-code-" ++ strftimeYmdHMS env.now) env.cwdBasename
          (pyIsoformat env.now) entries (pyIsoformat env.now) hwf
        simp only [save_learning_file, hemp, Bool.false_eq_true, if_false, ne_eq,
          not_true_eq_false, hc]
        exact ⟨_, _, rfl⟩
      · obtain ⟨content, hc⟩ := generate_markdown_content_ok
          s env.cwdBasename (pyIsoformat (sessionTimestampOf env s)) entries
          (pyIsoformat env.now) hwf
        simp only [save_learning_file, hemp, Bool.false_eq_true, if_false, ne_eq, hse,
          not_false_eq_true, if_true, hc]
        exact ⟨_, _, rfl⟩
  · simp only [get_learning_file_paths, hemp, Bool.false_eq_true, if_false]
    exact ⟨_, rfl⟩

/-- A concrete storage environment for the witness. -/
def storageEnv0 : StorageEnv :=
  { now := { year := 2024, month := 1, day := 2, hour := 3, minute := 4, second := 5, micro := 0 }
    strptimeHMS := fun _ => none
    cwdBasename := "Archon"
    projectRoot := "/app/Archon" }

/-- A concrete well-formed learning entry for the witness. -/
def entry0 : List (String × PyVal) :=
  [("id", .str "L001"), ("timestamp", .str "2024-01-02T03:04:05"),
   ("situation", .obj [("goal", .str "Fix the import error")])]

/-- Witness for C10: on the singleton list the functions proceed; the file
path and path dictionary exist. -/
theorem claim_C10_witness :
    (∃ p content, save_learning_file storageEnv0 [entry0] none = ([⟨p, content⟩], .ok p))
    ∧ (∃ d, get_learning_file_paths storageEnv0 [entry0] none = .ok d) :=
  ⟨(claim_C10_empty_check storageEnv0 [entry0] none (by simp)
      (by intro e he; rw [List.mem_singleton] at he; subst he; rfl)).2.2.1,
   (claim_C10_empty_check storageEnv0 [entry0] none (by simp)
      (by intro e he; rw [List.mem_singleton] at he; subst he; rfl)).2.2.2⟩
